import Mathlib

/-!
# Wallet Session Manager — verification of the `WalletConnector` class

Shallow embedding of the session-management core of the repository
(`WalletConnector` in the wallet-connector module): the connection record,
the localStorage-backed persistence (`saveConnection` / `loadSavedConnection`
/ `clearSavedConnection`), the connect flows for the three backends
(HashPack, MetaMask, WalletConnect), `disconnect`, the adapter event
listeners, `canRestoreConnection`, `restoreMetaMaskConnection` and
`getBalance`.

The class is single-threaded and event-driven; each `async` method is
embedded as a pure function from the connector's state (plus an
environment record carrying the results the external backend returns for
each suspending call) to the new state, the list of events emitted through
`this.emit`, and an `Except`-value for methods that can throw.  JavaScript
string errors are kept as `String`s; `JSON.stringify`/`JSON.parse` of the
connection record are modelled by an explicit serialized form.
-/

namespace TalentChain

/-- The three backend types of the `WalletType` enum
(`hashpack` / `metamask` / `walletconnect`). -/
inductive WalletType where
  | hashpack
  | metamask
  | walletconnect
  deriving Repr, DecidableEq

/-- The in-memory `WalletConnection` record.  The opaque capability fields
`signer` and `provider` (ethers `Signer`/`Provider` objects) are modelled
by their presence alone: `signer = true` means the `signer` key of the
record is set.  The model identifies a live capability with its inert
JSON image, which is all the persistence claims observe. -/
structure WalletConnection where
  typ : WalletType
  accountId : String
  address : String
  signer : Bool
  provider : Bool
  balance : Option String
  network : Option String
  chainId : Option Nat
  deriving Repr, DecidableEq

/-- What `JSON.stringify(this.connection)` writes under the localStorage
key: every field of the record survives.  `JSON.stringify` drops a key
only when its value is `undefined`; an ethers signer/provider object is
defined, so its key is serialized (as an inert plain object), hence
`signerField`/`providerField` record exactly the presence of those keys
in the stored JSON. -/
structure StoredConnection where
  typ : WalletType
  accountId : String
  address : String
  signerField : Bool
  providerField : Bool
  balance : Option String
  network : Option String
  chainId : Option Nat
  deriving Repr, DecidableEq

/-- `JSON.stringify` applied to a `WalletConnection`: all fields kept,
capability objects degraded to inert serialized data (their keys stay). -/
def serializeConnection (c : WalletConnection) : StoredConnection :=
  { typ := c.typ
    accountId := c.accountId
    address := c.address
    signerField := c.signer
    providerField := c.provider
    balance := c.balance
    network := c.network
    chainId := c.chainId }

/-- `JSON.parse` of a well-formed stored record, assigned back to
`this.connection`: the parsed object has the same fields; a parsed
`signer`/`provider` key holds a plain (non-functional) object, which this
model identifies with presence. -/
def deserializeConnection (d : StoredConnection) : WalletConnection :=
  { typ := d.typ
    accountId := d.accountId
    address := d.address
    signer := d.signerField
    provider := d.providerField
    balance := d.balance
    network := d.network
    chainId := d.chainId }

/-- A value stored under the `talentchain_wallet_connection` localStorage
key: either the JSON of a connection record, or unparseable garbage. -/
inductive StoredValue where
  | record (d : StoredConnection)
  | garbage (s : String)
  deriving Repr, DecidableEq

/-- `JSON.parse` on the raw stored value: a record parses, garbage throws
(modelled as `Except.error`). -/
def jsonParse : StoredValue → Except String StoredConnection
  | StoredValue.record d => Except.ok d
  | StoredValue.garbage s => Except.error ("Unexpected token in JSON: " ++ s)

/-- The lifecycle events emitted through `this.emit`. -/
inductive WEvent where
  | connected (c : Option WalletConnection)
  | disconnected (c : Option WalletConnection)
  | accountsChanged (accounts : List String)
  | chainChanged (chainId : String)
  | networkMismatch (current : String) (expected : String)
  | accountChanged (c : WalletConnection)
  deriving Repr, DecidableEq

/-- The mutable fields of the `WalletConnector` instance that the verified
methods read or write.  The `hederaClient`, `walletConnectProvider`,
`hashPackConnector` and `hederaWalletConnectProvider` object references
are tracked by presence (`null` vs set), which is all the code branches
on. -/
structure ConnectorState where
  connection : Option WalletConnection
  storage : Option StoredValue
  hederaClient : Bool
  walletConnectProvider : Bool
  hashPackConnector : Bool
  hederaWalletConnectProvider : Bool
  deriving Repr, DecidableEq

/-- JavaScript `x || d` on an optional string config/field: `undefined`
and the empty string are falsy. -/
def jsOr (o : Option String) (d : String) : String :=
  match o with
  | none => d
  | some s => if s = "" then d else s

/-- The environment-variable configuration the connector reads
(`NEXT_PUBLIC_HEDERA_NETWORK`, `NEXT_PUBLIC_METAMASK_CHAIN_ID`,
`NEXT_PUBLIC_WALLETCONNECT_PROJECT_ID`); `none` is an unset variable. -/
structure Config where
  hederaNetwork : Option String
  metamaskChainId : Option String
  walletConnectProjectId : Option String
  deriving Repr, DecidableEq

/-- `HEDERA_NETWORKS[name]?.chainId`. -/
def hederaNetworkChainId (name : String) : Option Nat :=
  if name = "testnet" then some 296
  else if name = "mainnet" then some 295
  else none

/-- `saveConnection`: when a connection is set, overwrite the localStorage
key with its JSON; a `null` connection writes nothing. -/
def saveConnection (s : ConnectorState) : ConnectorState :=
  match s.connection with
  | some c => { s with storage := some (StoredValue.record (serializeConnection c)) }
  | none => s

/-- `clearSavedConnection`: remove the localStorage key. -/
def clearSavedConnection (s : ConnectorState) : ConnectorState :=
  { s with storage := none }

/-- `loadSavedConnection`, up to the synchronous part (the deferred
`restoreMetaMaskConnection` runs later and is modelled separately): read
the key; on parse success assign the parsed record to `this.connection`;
on parse failure the `catch` clears the key and leaves the connection
untouched.  The method is total: a parse failure never escapes it. -/
def loadSavedConnection (s : ConnectorState) : ConnectorState :=
  match s.storage with
  | none => s
  | some v =>
    match jsonParse v with
    | Except.ok d => { s with connection := some (deserializeConnection d) }
    | Except.error _ => clearSavedConnection s

/-- `disconnect`.  `wcTeardown` is the result of
`this.walletConnectProvider.disconnect()`, awaited only for a
WalletConnect-type connection with a provider object present; a rejection
there propagates out of `disconnect` before any state is touched.  With a
`null` connection the whole body is skipped. -/
def disconnect (s : ConnectorState) (wcTeardown : Except String Unit) :
    ConnectorState × List WEvent × Except String Unit :=
  match s.connection with
  | none => (s, [], Except.ok ())
  | some c =>
    let teardown : Except String Unit :=
      if c.typ = WalletType.walletconnect then
        if s.walletConnectProvider then wcTeardown else Except.ok ()
      else Except.ok ()
    match teardown with
    | Except.error e => (s, [], Except.error e)
    | Except.ok _ =>
      let s1 : ConnectorState :=
        { s with
          connection := none
          storage := none
          walletConnectProvider :=
            if c.typ = WalletType.metamask then false else s.walletConnectProvider }
      (s1, [WEvent.disconnected (some c)], Except.ok ())

/-- JavaScript `b || '0'` for the cached `balance` field (empty string is
falsy). -/
def jsOrZero (b : Option String) : String :=
  jsOr b "0"

/-- The backend results `getBalance` may consume: the Hedera
`AccountBalanceQuery` (HashPack path) and `provider.getBalance` followed
by `ethers.formatEther` (EVM path), each of which may reject. -/
structure BalanceEnv where
  hederaQueryRes : Except String String
  providerBalanceRes : Except String String
  deriving Repr

/-- `getBalance`: throws only when no connection is set; otherwise every
backend failure is caught and turned into `"0"`, and when no query path
applies the cached `balance || '0'` is returned. -/
def getBalance (s : ConnectorState) (env : BalanceEnv) : Except String String :=
  match s.connection with
  | none => Except.error "No wallet connected"
  | some c =>
    let attempt : Except String String :=
      if c.typ = WalletType.hashpack then
        if s.hederaClient then env.hederaQueryRes
        else Except.ok (jsOrZero c.balance)
      else if c.provider then env.providerBalanceRes
      else Except.ok (jsOrZero c.balance)
    match attempt with
    | Except.ok b => Except.ok b
    | Except.error _ => Except.ok "0"

/-- JavaScript `s.toLowerCase()` on the ASCII account strings the
connector compares (hex addresses). -/
def jsToLowerCase (s : String) : String :=
  (s.data.map Char.toLower).asString

/-- The backend results a MetaMask restore/health check consumes:
availability of `window.ethereum` with `isMetaMask`, and the prompt-free
`eth_accounts` request (which by the provider contract never opens a
permission dialog; it rejects when the extension is unresponsive). -/
structure RestoreEnv where
  ethereumAvailable : Bool
  ethAccountsRes : Except String (List String)
  getSignerRes : Except String Unit
  getBalanceRes : Except String String
  deriving Repr

/-- `canRestoreConnection`: `false` without a saved connection; for a
MetaMask connection, query `eth_accounts` (no prompt) and compare the
first reported account with the saved address case-insensitively; every
failure, absence, empty account list or non-MetaMask type yields
`false`. -/
def canRestoreConnection (s : ConnectorState) (env : RestoreEnv) : Bool :=
  match s.connection with
  | none => false
  | some c =>
    if c.typ = WalletType.metamask then
      if env.ethereumAvailable then
        match env.ethAccountsRes with
        | Except.error _ => false
        | Except.ok accounts =>
          match accounts with
          | [] => false
          | a :: _ => jsToLowerCase a = jsToLowerCase c.address
      else false
    else false

/-- `(p ++ anything).isPrefixOf` on character lists: does `s` start with
`p`? (Auxiliary for JavaScript `String.prototype.includes`.) -/
def strStartsAux : List Char → List Char → Bool
  | [], _ => true
  | _ :: _, [] => false
  | p :: ps, c :: cs => p = c && strStartsAux ps cs

/-- Does `s` contain `pat` as a contiguous run? (Auxiliary.) -/
def strInfixAux (pat : List Char) : List Char → Bool
  | [] => strStartsAux pat []
  | c :: cs => strStartsAux pat (c :: cs) || strInfixAux pat cs

/-- JavaScript `s.includes(pat)`. -/
def strIncludes (s pat : String) : Bool :=
  strInfixAux pat.toList s.toList

/-- Value of one hex digit, if `c` is one. -/
def hexDigitVal (c : Char) : Option Nat :=
  if '0' ≤ c ∧ c ≤ '9' then some (c.toNat - '0'.toNat)
  else if 'a' ≤ c ∧ c ≤ 'f' then some (c.toNat - 'a'.toNat + 10)
  else if 'A' ≤ c ∧ c ≤ 'F' then some (c.toNat - 'A'.toNat + 10)
  else none

/-- Longest hex-digit run at the front of `l`, accumulated into `acc`;
`none` when no digit was consumed at all (JavaScript `NaN`). -/
def takeHexDigits : List Char → Nat → Bool → Option Nat
  | [], acc, seen => if seen then some acc else none
  | c :: rest, acc, seen =>
    match hexDigitVal c with
    | some v => takeHexDigits rest (acc * 16 + v) true
    | none => if seen then some acc else none

/-- JavaScript `parseInt(s, 16)`: optional sign, optional `0x`/`0X`,
longest hex-digit run; `none` is `NaN`.  (The inputs the connector feeds
it — `eth_chainId` values — carry no surrounding whitespace, so the
initial trim is omitted.) -/
def jsParseInt16 (s : String) : Option Int :=
  let cs := s.toList
  let signed : Bool × List Char :=
    match cs with
    | '-' :: r => (true, r)
    | '+' :: r => (false, r)
    | _ => (false, cs)
  let body : List Char :=
    match signed.2 with
    | '0' :: 'x' :: r => r
    | '0' :: 'X' :: r => r
    | l => l
  match takeHexDigits body 0 false with
  | none => none
  | some n => some (if signed.1 then -(n : Int) else (n : Int))

/-- Longest decimal-digit run at the front of `l`. -/
def takeDecDigits : List Char → Nat → Bool → Option Nat
  | [], acc, seen => if seen then some acc else none
  | c :: rest, acc, seen =>
    if '0' ≤ c ∧ c ≤ '9' then takeDecDigits rest (acc * 10 + (c.toNat - '0'.toNat)) true
    else if seen then some acc else none

/-- JavaScript `parseInt(s)` with no radix on a non-`0x` string (the
connector applies it to decimal chain-id configuration strings such as
`"296"`): optional sign then longest decimal run; `none` is `NaN`. -/
def jsParseInt10 (s : String) : Option Int :=
  let cs := s.toList
  let signed : Bool × List Char :=
    match cs with
    | '-' :: r => (true, r)
    | '+' :: r => (false, r)
    | _ => (false, cs)
  match takeDecDigits signed.2 0 false with
  | none => none
  | some n => some (if signed.1 then -(n : Int) else (n : Int))

/-- JavaScript `Number.prototype.toString()` on a parse result:
`NaN` prints as `"NaN"`. -/
def jsNumToString (o : Option Int) : String :=
  match o with
  | none => "NaN"
  | some i => toString i

/-- JavaScript `n.toString(16)` on a parse result (used to build the
expected chain id in hex, `0x…`). -/
def jsNumToHexString (o : Option Int) : String :=
  match o with
  | none => "NaN"
  | some i =>
    if i < 0 then "-" ++ (Nat.toDigits 16 i.natAbs).asString
    else (Nat.toDigits 16 i.natAbs).asString

/-- The `chainId` field (a TS `number`) a connect flow stores:
`parseInt` of the configured decimal chain id; `NaN` is `none`. -/
def parsedChainIdField (decimalChainId : String) : Option Nat :=
  match jsParseInt10 decimalChainId with
  | some i => if i < 0 then none else some i.toNat
  | none => none

/-- `updateConnection(newAccount)`: only a MetaMask connection with a
provider object is refreshed; `getSigner`/`getBalance` rejections are
caught and logged with no state change and no event; on success the
account, signer and balance are replaced, the record re-saved and one
`accountChanged` emitted. -/
def updateConnection (s : ConnectorState) (newAccount : String)
    (signerRes : Except String Unit) (balanceRes : Except String String) :
    ConnectorState × List WEvent :=
  match s.connection with
  | none => (s, [])
  | some c =>
    if c.typ = WalletType.metamask then
      if c.provider then
        match signerRes with
        | Except.error _ => (s, [])
        | Except.ok _ =>
          match balanceRes with
          | Except.error _ => (s, [])
          | Except.ok bal =>
            let updated : WalletConnection :=
              { c with
                accountId := newAccount
                address := newAccount
                signer := true
                balance := some bal }
            (saveConnection { s with connection := some updated },
             [WEvent.accountChanged updated])
      else (s, [])
    else (s, [])

/-- The `accountsChanged` listener registered by `setupMetaMaskListeners`:
re-emit the raw notification, then either implicitly disconnect (empty
list) or refresh the connection with the new first account.
`wcTeardown`, `signerRes`, `balanceRes` are the backend results the two
branches may consume. -/
def handleMetaMaskAccountsChanged (s : ConnectorState) (accounts : List String)
    (wcTeardown : Except String Unit)
    (signerRes : Except String Unit) (balanceRes : Except String String) :
    ConnectorState × List WEvent :=
  let raw := [WEvent.accountsChanged accounts]
  match accounts with
  | [] =>
    let r := disconnect s wcTeardown
    (r.1, raw ++ r.2.1)
  | a :: _ =>
    let r := updateConnection s a signerRes balanceRes
    (r.1, raw ++ r.2)

/-- The `chainChanged` listener registered by `setupMetaMaskListeners`:
emit `chainChanged`, then compare `parseInt(chainId, 16).toString()`
against the configured expected decimal chain id
(`NEXT_PUBLIC_METAMASK_CHAIN_ID || '296'`) and emit `networkMismatch`
with both raw values when they differ.  No state is touched. -/
def handleMetaMaskChainChanged (s : ConnectorState) (chainIdStr : String)
    (cfg : Config) : ConnectorState × List WEvent :=
  let expected := jsOr cfg.metamaskChainId "296"
  if jsNumToString (jsParseInt16 chainIdStr) ≠ expected then
    (s, [WEvent.chainChanged chainIdStr, WEvent.networkMismatch chainIdStr expected])
  else
    (s, [WEvent.chainChanged chainIdStr])

/-- The `chainChanged` listener registered by
`setupWalletConnectListeners`: it only re-emits `chainChanged`; there is
no mismatch check on this path. -/
def handleWalletConnectChainChanged (s : ConnectorState) (chainIdStr : String) :
    ConnectorState × List WEvent :=
  (s, [WEvent.chainChanged chainIdStr])

/-- The `accountsChanged` listener registered by
`setupWalletConnectListeners` (same shape as the MetaMask one). -/
def handleWalletConnectAccountsChanged (s : ConnectorState) (accounts : List String)
    (wcTeardown : Except String Unit)
    (signerRes : Except String Unit) (balanceRes : Except String String) :
    ConnectorState × List WEvent :=
  let raw := [WEvent.accountsChanged accounts]
  match accounts with
  | [] =>
    let r := disconnect s wcTeardown
    (r.1, raw ++ r.2.1)
  | a :: _ =>
    let r := updateConnection s a signerRes balanceRes
    (r.1, raw ++ r.2)

/-- JavaScript falsiness of an optional string (unset or `""`). -/
def jsFalsy (o : Option String) : Bool :=
  match o with
  | none => true
  | some s => s = ""

/-- The rewriting the `catch` block of `connectMetaMask` applies to any
error thrown inside it, in source order: the message-pattern rewrites
each rethrow immediately, so the later `resetConnectionState` call (which
re-tests `includes('timeout')` after the `timeout` pattern already threw)
is unreachable and no error path mutates state; an unmatched message is
replaced by a configuration error when either required environment
variable is falsy, and is rethrown as-is otherwise. -/
def mapMetaMaskError (cfg : Config) (msg : String) : String :=
  if strIncludes msg "rejected" then
    "MetaMask connection was rejected. Please approve the connection request."
  else if strIncludes msg "timeout" then
    "MetaMask connection timeout. Please try again."
  else if strIncludes msg "No accounts found" then
    "No accounts found in MetaMask. Please add an account and try again."
  else if strIncludes msg "not responsive" then
    "MetaMask is not responding. Please check if MetaMask is unlocked and try again."
  else if strIncludes msg "environment" then
    "Configuration issue detected. Please check your environment variables."
  else if jsFalsy cfg.metamaskChainId || jsFalsy cfg.hederaNetwork then
    "Configuration error: Missing required environment variables. Please check your .env.local file."
  else msg

/-- `wallet_switchEthereumChain` rejection: RPC error 4902 (chain not
added to the wallet) is handled specially; any other rejection is
rethrown. -/
inductive SwitchError where
  | unrecognizedChain
  | other (msg : String)
  deriving Repr

/-- The backend results `connectMetaMask` may consume, one field per
suspending call in source order.  The 30-second `Promise.race` timeout on
`eth_requestAccounts` is one of the possible rejections of
`requestAccountsRes` (message `"MetaMask connection timeout. Please try
again."`). -/
structure MetaMaskEnv where
  isMetaMask : Bool
  probeChainIdRes : Except String String
  requestAccountsRes : Except String (List String)
  chainIdRes : Except String (Option String)
  switchChainRes : Except SwitchError Unit
  addChainRes : Except String Unit
  getSignerRes : Except String Unit
  getBalanceRes : Except String String
  deriving Repr

/-- `connectMetaMask`.  Every throw funnels through the `catch` block
(`mapMetaMaskError`); no error path changes connector state (the
`resetConnectionState` branch of the catch is dead code, see
`mapMetaMaskError`).  On success the connection is stored, saved, one
`connected` event is emitted and the listeners are registered. -/
def connectMetaMask (s : ConnectorState) (cfg : Config) (env : MetaMaskEnv) :
    ConnectorState × List WEvent × Except String WalletConnection :=
  if ¬ env.isMetaMask then
    (s, [], Except.error (mapMetaMaskError cfg
      "MetaMask is not installed. Please install MetaMask extension."))
  else
    -- responsiveness probe: `eth_chainId` result logged, rejection swallowed
    match env.requestAccountsRes with
    | Except.error msg => (s, [], Except.error (mapMetaMaskError cfg msg))
    | Except.ok accounts =>
      match accounts with
      | [] =>
        (s, [], Except.error (mapMetaMaskError cfg
          "No accounts found. Please make sure you have accounts in MetaMask."))
      | account :: _ =>
        match env.chainIdRes with
        | Except.error msg => (s, [], Except.error (mapMetaMaskError cfg msg))
        | Except.ok chainIdOpt =>
          let expectedChainId := jsOr cfg.metamaskChainId "296"
          let expectedChainIdHex := "0x" ++ jsNumToHexString (jsParseInt10 expectedChainId)
          let switchOutcome : Except String Unit :=
            if chainIdOpt = some expectedChainIdHex then Except.ok ()
            else
              match env.switchChainRes with
              | Except.ok _ => Except.ok ()
              | Except.error SwitchError.unrecognizedChain =>
                -- `wallet_addEthereumChain` with the HEDERA_NETWORKS entry;
                -- an unknown configured network name would fault reading the
                -- undefined entry's fields before the request is even made
                if hederaNetworkChainId (jsOr cfg.hederaNetwork "testnet") = none then
                  Except.error "Cannot read properties of undefined"
                else env.addChainRes
              | Except.error (SwitchError.other msg) => Except.error msg
          match switchOutcome with
          | Except.error msg => (s, [], Except.error (mapMetaMaskError cfg msg))
          | Except.ok _ =>
            match env.getSignerRes with
            | Except.error msg => (s, [], Except.error (mapMetaMaskError cfg msg))
            | Except.ok _ =>
              match env.getBalanceRes with
              | Except.error msg => (s, [], Except.error (mapMetaMaskError cfg msg))
              | Except.ok balanceInEther =>
                let conn : WalletConnection :=
                  { typ := WalletType.metamask
                    accountId := account
                    address := account
                    signer := true
                    provider := true
                    balance := some balanceInEther
                    network := some (jsOr cfg.hederaNetwork "testnet")
                    chainId := parsedChainIdField expectedChainId }
                let s1 := saveConnection { s with connection := some conn }
                (s1, [WEvent.connected (some conn)], Except.ok conn)

/-- The backend results `connectHashPackWalletConnect` may consume:
`DAppConnector.init` plus `connectExtension` folded into one handshake
result, the account ids of the signers the connector then exposes, and
the Hedera `AccountBalanceQuery`. -/
structure HashPackEnv where
  initRes : Except String Unit
  signerAccountIds : List String
  balanceRes : Except String String
  deriving Repr

/-- `connectHashPackWalletConnect`.  The `DAppConnector` object is
constructed (and the field set) before `init`, so a failed handshake
leaves `hashPackConnector` set; a balance-query rejection is swallowed
(balance stays `'0'`); the resulting record carries no `signer`/
`provider` keys. -/
def connectHashPackWalletConnect (s : ConnectorState) (cfg : Config)
    (env : HashPackEnv) :
    ConnectorState × List WEvent × Except String WalletConnection :=
  let s0 : ConnectorState := { s with hashPackConnector := true }
  match env.initRes with
  | Except.error msg => (s0, [], Except.error msg)
  | Except.ok _ =>
    match env.signerAccountIds with
    | [] => (s0, [], Except.error "No signers available after connection")
    | accountId :: _ =>
      let s1 : ConnectorState := { s0 with hederaWalletConnectProvider := true }
      let balance : String :=
        if s1.hederaClient then
          match env.balanceRes with
          | Except.ok b => b
          | Except.error _ => "0"
        else "0"
      let conn : WalletConnection :=
        { typ := WalletType.hashpack
          accountId := accountId
          address := accountId
          signer := false
          provider := false
          balance := some balance
          network := some (jsOr cfg.hederaNetwork "testnet")
          chainId := hederaNetworkChainId (jsOr cfg.hederaNetwork "testnet") }
      let s2 := saveConnection { s1 with connection := some conn }
      (s2, [WEvent.connected (some conn)], Except.ok conn)

/-- `connectHashPack` delegates to the WalletConnect integration and
rethrows its errors unchanged. -/
def connectHashPack (s : ConnectorState) (cfg : Config) (env : HashPackEnv) :
    ConnectorState × List WEvent × Except String WalletConnection :=
  connectHashPackWalletConnect s cfg env

/-- The backend results `connectWalletConnect` may consume. -/
structure WalletConnectEnv where
  initRes : Except String Unit
  connectRes : Except String Unit
  accountsRes : Except String (List String)
  getSignerRes : Except String Unit
  getBalanceRes : Except String String
  deriving Repr

/-- `connectWalletConnect`.  A missing/empty project id throws before any
backend call; the provider is initialized once (the field keeps its value
on later failures); `!account` rejects both a missing and an empty first
account. -/
def connectWalletConnect (s : ConnectorState) (cfg : Config)
    (env : WalletConnectEnv) :
    ConnectorState × List WEvent × Except String WalletConnection :=
  if jsFalsy cfg.walletConnectProjectId then
    (s, [], Except.error
      "WalletConnect Project ID is missing. Please check your environment variables.")
  else
    let initOutcome : Except String ConnectorState :=
      if s.walletConnectProvider then Except.ok s
      else
        match env.initRes with
        | Except.ok _ => Except.ok { s with walletConnectProvider := true }
        | Except.error msg => Except.error msg
    match initOutcome with
    | Except.error msg => (s, [], Except.error msg)
    | Except.ok s1 =>
      match env.connectRes with
      | Except.error msg => (s1, [], Except.error msg)
      | Except.ok _ =>
        match env.accountsRes with
        | Except.error msg => (s1, [], Except.error msg)
        | Except.ok accounts =>
          match accounts with
          | [] => (s1, [], Except.error "No accounts found")
          | account :: _ =>
            if account = "" then (s1, [], Except.error "No accounts found")
            else
              match env.getSignerRes with
              | Except.error msg => (s1, [], Except.error msg)
              | Except.ok _ =>
                match env.getBalanceRes with
                | Except.error msg => (s1, [], Except.error msg)
                | Except.ok balanceInEther =>
                  let conn : WalletConnection :=
                    { typ := WalletType.walletconnect
                      accountId := account
                      address := account
                      signer := true
                      provider := true
                      balance := some balanceInEther
                      network := some (jsOr cfg.hederaNetwork "testnet")
                      chainId := parsedChainIdField (jsOr cfg.metamaskChainId "296") }
                  let s2 := saveConnection { s1 with connection := some conn }
                  (s2, [WEvent.connected (some conn)], Except.ok conn)

/-- One environment record per backend, bundled for the dispatcher. -/
structure BackendEnv where
  hashpack : HashPackEnv
  metamask : MetaMaskEnv
  walletconnect : WalletConnectEnv
  deriving Repr

/-- The public `connect(walletType)`: a plain dispatch on the requested
backend type whose `try`/`catch` only logs and rethrows.  There is no
guard on the current connection or on an in-flight connect — the method
body never reads `this.connection`. -/
def connect (s : ConnectorState) (cfg : Config) (walletType : WalletType)
    (env : BackendEnv) :
    ConnectorState × List WEvent × Except String WalletConnection :=
  match walletType with
  | WalletType.hashpack => connectHashPack s cfg env.hashpack
  | WalletType.metamask => connectMetaMask s cfg env.metamask
  | WalletType.walletconnect => connectWalletConnect s cfg env.walletconnect

/-- `restoreMetaMaskConnection` (the deferred startup restore).  The
saved descriptor is cleared when the extension is absent, when
`eth_accounts` reports no account, when the first reported account
differs (case-insensitively) from the saved address, and when rebuilding
the provider/signer fails; only a rejection of the `eth_accounts` request
itself reaches the outer catch, which logs and deliberately preserves the
descriptor.  A successful match rehydrates the record with a fresh
signer/provider and balance, re-saves it and emits `connected`. -/
def restoreMetaMaskConnection (s : ConnectorState) (env : RestoreEnv) :
    ConnectorState × List WEvent :=
  if ¬ env.ethereumAvailable then (clearSavedConnection s, [])
  else
    match env.ethAccountsRes with
    | Except.error _ => (s, [])
    | Except.ok [] => (clearSavedConnection s, [])
    | Except.ok (a :: _) =>
      match s.connection with
      | none => (clearSavedConnection s, [])
      | some c =>
        if jsToLowerCase a = jsToLowerCase c.address then
          match env.getSignerRes with
          | Except.error _ => (clearSavedConnection s, [])
          | Except.ok _ =>
            match env.getBalanceRes with
            | Except.error _ => (clearSavedConnection s, [])
            | Except.ok bal =>
              let restored : WalletConnection :=
                { c with signer := true, provider := true, balance := some bal }
              let s1 := saveConnection { s with connection := some restored }
              (s1, [WEvent.connected (some restored)])
        else (clearSavedConnection s, [])

/-- Number of `disconnected` events in an emission trace. -/
def countDisconnected (evs : List WEvent) : Nat :=
  (evs.filter fun e => match e with
    | WEvent.disconnected _ => true
    | _ => false).length

/-- Number of `accountChanged` events in an emission trace. -/
def countAccountChanged (evs : List WEvent) : Nat :=
  (evs.filter fun e => match e with
    | WEvent.accountChanged _ => true
    | _ => false).length

/-- Number of `networkMismatch` events in an emission trace. -/
def countNetworkMismatch (evs : List WEvent) : Nat :=
  (evs.filter fun e => match e with
    | WEvent.networkMismatch _ _ => true
    | _ => false).length

/-- Number of `connected` events in an emission trace. -/
def countConnected (evs : List WEvent) : Nat :=
  (evs.filter fun e => match e with
    | WEvent.connected _ => true
    | _ => false).length

/-- Is an `Except` result a success? -/
def exceptIsOk {ε α : Type} : Except ε α → Bool
  | Except.ok _ => true
  | Except.error _ => false

/-! ### Concrete fixtures for counterexamples and witnesses -/

/-- A fully set configuration (testnet, chain 296). -/
def cfg0 : Config :=
  { hederaNetwork := some "testnet"
    metamaskChainId := some "296"
    walletConnectProjectId := some "a1b2c3d4e5f60718293a4b5c6d7e8f90" }

/-- An established MetaMask session for account `0xABC1`. -/
def connOld : WalletConnection :=
  { typ := WalletType.metamask
    accountId := "0xABC1"
    address := "0xABC1"
    signer := true
    provider := true
    balance := some "1.0"
    network := some "testnet"
    chainId := some 296 }

/-- Connector state holding `connOld` with its descriptor saved. -/
def stateConnected : ConnectorState :=
  { connection := some connOld
    storage := some (StoredValue.record (serializeConnection connOld))
    hederaClient := true
    walletConnectProvider := false
    hashPackConnector := false
    hederaWalletConnectProvider := false }

/-- An established WalletConnect session for the same account. -/
def connWC : WalletConnection :=
  { typ := WalletType.walletconnect
    accountId := "0xABC1"
    address := "0xABC1"
    signer := true
    provider := true
    balance := some "1.0"
    network := some "testnet"
    chainId := some 296 }

/-- Connector state holding `connWC` with its descriptor saved. -/
def stateConnectedWC : ConnectorState :=
  { connection := some connWC
    storage := some (StoredValue.record (serializeConnection connWC))
    hederaClient := true
    walletConnectProvider := true
    hashPackConnector := false
    hederaWalletConnectProvider := false }

/-- An established HashPack session. -/
def connHP : WalletConnection :=
  { typ := WalletType.hashpack
    accountId := "0.0.12345"
    address := "0.0.12345"
    signer := false
    provider := false
    balance := some "10"
    network := some "testnet"
    chainId := some 296 }

/-- Connector state holding `connHP` with its descriptor saved. -/
def stateConnectedHP : ConnectorState :=
  { connection := some connHP
    storage := some (StoredValue.record (serializeConnection connHP))
    hederaClient := true
    walletConnectProvider := false
    hashPackConnector := true
    hederaWalletConnectProvider := true }

/-- The empty (fresh) connector state. -/
def stateFresh : ConnectorState :=
  { connection := none
    storage := none
    hederaClient := true
    walletConnectProvider := false
    hashPackConnector := false
    hederaWalletConnectProvider := false }

/-- A MetaMask backend that answers every call successfully with account
`0xDEF2` already on the expected chain `0x128`. -/
def mmEnvOk : MetaMaskEnv :=
  { isMetaMask := true
    probeChainIdRes := Except.ok "0x128"
    requestAccountsRes := Except.ok ["0xDEF2"]
    chainIdRes := Except.ok (some "0x128")
    switchChainRes := Except.ok ()
    addChainRes := Except.ok ()
    getSignerRes := Except.ok ()
    getBalanceRes := Except.ok "2.0" }

/-- A HashPack backend that answers every call successfully. -/
def hpEnvOk : HashPackEnv :=
  { initRes := Except.ok ()
    signerAccountIds := ["0.0.777"]
    balanceRes := Except.ok "5" }

/-- A WalletConnect backend that answers every call successfully. -/
def wcEnvOk : WalletConnectEnv :=
  { initRes := Except.ok ()
    connectRes := Except.ok ()
    accountsRes := Except.ok ["0xDEF2"]
    getSignerRes := Except.ok ()
    getBalanceRes := Except.ok "2.0" }

/-- Bundle of the three successful backends. -/
def envBundleOk : BackendEnv :=
  { hashpack := hpEnvOk
    metamask := mmEnvOk
    walletconnect := wcEnvOk }

/-- The session `connectMetaMask` builds from `cfg0` and `mmEnvOk`. -/
def mmConnNew : WalletConnection :=
  { typ := WalletType.metamask
    accountId := "0xDEF2"
    address := "0xDEF2"
    signer := true
    provider := true
    balance := some "2.0"
    network := some "testnet"
    chainId := some 296 }

/-- Restore attempt with the extension absent. -/
def envRestoreAbsent : RestoreEnv :=
  { ethereumAvailable := false
    ethAccountsRes := Except.ok []
    getSignerRes := Except.ok ()
    getBalanceRes := Except.ok "0" }

/-- Restore attempt where the prompt-free account query itself rejects
(extension unresponsive). -/
def envRestoreLocked : RestoreEnv :=
  { ethereumAvailable := true
    ethAccountsRes := Except.error "MetaMask request failed"
    getSignerRes := Except.ok ()
    getBalanceRes := Except.ok "0" }

/-- Restore attempt where the backend reports the saved account (in a
different hex case) as already authorized. -/
def envRestoreMatch : RestoreEnv :=
  { ethereumAvailable := true
    ethAccountsRes := Except.ok ["0xabc1"]
    getSignerRes := Except.ok ()
    getBalanceRes := Except.ok "3.0" }

/-- Balance environment in which both query paths reject. -/
def envBalanceErr : BalanceEnv :=
  { hederaQueryRes := Except.error "query failed"
    providerBalanceRes := Except.error "provider gone" }

/-- Well-formedness of the account strings the external backends report:
HashPack signer ids are `AccountId.toString()` values (`shard.realm.num`,
never empty) and MetaMask `eth_requestAccounts` returns hex addresses
(never the empty string).  This is the wire-protocol contract of the
backends, not something the connector enforces. -/
def EnvAccountsWellFormed (env : BackendEnv) : Prop :=
  (∀ a ∈ env.hashpack.signerAccountIds, a ≠ "") ∧
  (∀ l, env.metamask.requestAccountsRes = Except.ok l → ∀ a ∈ l, a ≠ "")

end TalentChain

namespace TalentChain

/-! ## Theorems -/

/-- C3 (counterexample): the spec's round-trip claim demands that the
signing handle be absent both from what `saveConnection` writes and from
what `loadSavedConnection` returns; for the established MetaMask session
`connOld` (which carries a signer) the serialized record keeps the
`signer` key, so the claim fails at this input. -/
theorem roundTrip_signingHandle_counterexample :
    ¬ ((serializeConnection connOld).signerField = false ∧
       (deserializeConnection (serializeConnection connOld)).signer = false) := by
  decide

/-- C3 (amended): `JSON.stringify`/`JSON.parse` round-trip the connection
record exactly — every field survives, including the presence of the
`signer`/`provider` keys, which are written as inert serialized data
rather than excluded. -/
theorem roundTrip_preservesAllFields (c : WalletConnection) :
    deserializeConnection (serializeConnection c) = c := rfl

/-- C8: a stored value that fails to deserialize makes
`loadSavedConnection` remove the key and restore no session; the parse
failure is caught inside the method (the embedding is a total function —
nothing propagates to the caller). -/
theorem loadSavedConnection_garbage (s : ConnectorState) (g : String)
    (hstore : s.storage = some (StoredValue.garbage g)) :
    loadSavedConnection s = { s with storage := none } ∧
    (s.connection = none → (loadSavedConnection s).connection = none) := by
  constructor
  · simp [loadSavedConnection, hstore, jsonParse, clearSavedConnection]
  · intro hconn
    simp [loadSavedConnection, hstore, jsonParse, clearSavedConnection, hconn]

/-- C8 witness: concrete garbage under the key on a fresh connector. -/
theorem loadSavedConnection_garbage_witness :
    loadSavedConnection { stateFresh with storage := some (StoredValue.garbage "not json") } =
      { stateFresh with storage := none } ∧
    (loadSavedConnection
        { stateFresh with storage := some (StoredValue.garbage "not json") }).connection = none := by
  have h := loadSavedConnection_garbage
    { stateFresh with storage := some (StoredValue.garbage "not json") } "not json" rfl
  exact ⟨h.1, h.2 rfl⟩

/-- C9: `disconnect` with no current session skips its whole body: state
and storage untouched, no event, no error. -/
theorem disconnect_idempotent (s : ConnectorState) (wc : Except String Unit)
    (h : s.connection = none) :
    disconnect s wc = (s, [], Except.ok ()) := by
  simp [disconnect, h]

/-- C9 witness: disconnecting the fresh (already disconnected) state. -/
theorem disconnect_idempotent_witness :
    disconnect stateFresh (Except.ok ()) = (stateFresh, [], Except.ok ()) :=
  disconnect_idempotent stateFresh (Except.ok ()) rfl

/-- C5: the MetaMask `accountsChanged` listener on an empty account list
performs the implicit disconnect — session and descriptor cleared, one
`disconnected` event, no `accountChanged` event.  (The session being a
MetaMask one is how this listener comes to be registered; its raw
`accountsChanged` re-emission precedes the disconnect and is not an
`accountChanged`.) -/
theorem accountsChangedEmpty_disconnects (s : ConnectorState) (c : WalletConnection)
    (wc : Except String Unit) (sr : Except String Unit) (br : Except String String)
    (hconn : s.connection = some c) (htyp : c.typ = WalletType.metamask) :
    (handleMetaMaskAccountsChanged s [] wc sr br).1.connection = none ∧
    (handleMetaMaskAccountsChanged s [] wc sr br).1.storage = none ∧
    countDisconnected (handleMetaMaskAccountsChanged s [] wc sr br).2 = 1 ∧
    countAccountChanged (handleMetaMaskAccountsChanged s [] wc sr br).2 = 0 := by
  simp [handleMetaMaskAccountsChanged, disconnect, hconn, htyp,
    countDisconnected, countAccountChanged, List.filter]

/-- C5 witness: the established MetaMask session losing all accounts. -/
theorem accountsChangedEmpty_disconnects_witness :
    (handleMetaMaskAccountsChanged stateConnected [] (Except.ok ()) (Except.ok ())
        (Except.ok "0")).1.connection = none ∧
    (handleMetaMaskAccountsChanged stateConnected [] (Except.ok ()) (Except.ok ())
        (Except.ok "0")).1.storage = none ∧
    countDisconnected (handleMetaMaskAccountsChanged stateConnected [] (Except.ok ())
        (Except.ok ()) (Except.ok "0")).2 = 1 ∧
    countAccountChanged (handleMetaMaskAccountsChanged stateConnected [] (Except.ok ())
        (Except.ok ()) (Except.ok "0")).2 = 0 :=
  accountsChangedEmpty_disconnects stateConnected connOld (Except.ok ()) (Except.ok ())
    (Except.ok "0") rfl rfl

/-- C4 (counterexample): the WalletConnect `chainChanged` listener emits
only the normalized `chainChanged` — no `networkMismatch` — even though
the reported chain `0x1` differs from the configured expected chain
`296`, so the claim fails for a WalletConnect session. -/
theorem chainChanged_walletconnect_counterexample :
    (handleWalletConnectChainChanged stateConnectedWC "0x1").2 =
      [WEvent.chainChanged "0x1"] ∧
    countNetworkMismatch (handleWalletConnectChainChanged stateConnectedWC "0x1").2 = 0 ∧
    jsNumToString (jsParseInt16 "0x1") ≠ jsOr cfg0.metamaskChainId "296" := by
  decide

/-- C4 (amended): the MetaMask `chainChanged` listener, on a chain whose
decimal rendering differs from the configured expected chain id, emits
exactly one `chainChanged` followed by one `networkMismatch` carrying
both values, and leaves the connector state (hence the session)
untouched; the WalletConnect listener only re-emits `chainChanged`. -/
theorem chainChanged_metamask_mismatch (s : ConnectorState) (chainIdStr : String)
    (cfg : Config)
    (h : jsNumToString (jsParseInt16 chainIdStr) ≠ jsOr cfg.metamaskChainId "296") :
    handleMetaMaskChainChanged s chainIdStr cfg =
      (s, [WEvent.chainChanged chainIdStr,
           WEvent.networkMismatch chainIdStr (jsOr cfg.metamaskChainId "296")]) := by
  simp [handleMetaMaskChainChanged, h]

/-- C4 witness: the spec's scenario — session on chain 296, adapter
reports `0x1`. -/
theorem chainChanged_metamask_mismatch_witness :
    handleMetaMaskChainChanged stateConnected "0x1" cfg0 =
      (stateConnected, [WEvent.chainChanged "0x1",
                        WEvent.networkMismatch "0x1" "296"]) :=
  chainChanged_metamask_mismatch stateConnected "0x1" cfg0 (by decide)

/-- C2 (counterexample): with the MetaMask extension absent — a failure
that is not an ownership change — the startup restore deletes the
Persisted Session Descriptor instead of leaving it in storage as the
claim requires. -/
theorem restore_keepDescriptor_counterexample :
    stateConnected.storage = some (StoredValue.record (serializeConnection connOld)) ∧
    (restoreMetaMaskConnection stateConnected envRestoreAbsent).1.storage = none := by
  decide

/-- C2 (amended): during the startup restore the descriptor survives only
when the prompt-free account query itself throws (extension present but
unresponsive/locked at the RPC level), in which case state, storage and
the event stream are all untouched; in every other non-success branch —
extension absent, no authorized accounts reported, no in-memory session,
different first account (ownership change), or a failure while
recreating the provider/signer — the descriptor is deleted.  The final
conjunct settles the one remaining branch, the fully successful restore,
which re-saves the rehydrated record and emits `connected`; the case
split is therefore exhaustive and the query-throw branch is the only one
that leaves the descriptor in storage untouched. -/
theorem restore_descriptor_policy (s : ConnectorState) (env : RestoreEnv) (e : String) :
    (env.ethereumAvailable = false →
       (restoreMetaMaskConnection s env).1.storage = none) ∧
    (env.ethereumAvailable = true → env.ethAccountsRes = Except.error e →
       restoreMetaMaskConnection s env = (s, [])) ∧
    (env.ethereumAvailable = true → env.ethAccountsRes = Except.ok [] →
       (restoreMetaMaskConnection s env).1.storage = none) ∧
    (∀ a rest, env.ethereumAvailable = true →
       env.ethAccountsRes = Except.ok (a :: rest) → s.connection = none →
       (restoreMetaMaskConnection s env).1.storage = none) ∧
    (∀ a rest c, env.ethereumAvailable = true →
       env.ethAccountsRes = Except.ok (a :: rest) → s.connection = some c →
       jsToLowerCase a ≠ jsToLowerCase c.address →
       (restoreMetaMaskConnection s env).1.storage = none) ∧
    (∀ a rest c e2, env.ethereumAvailable = true →
       env.ethAccountsRes = Except.ok (a :: rest) → s.connection = some c →
       jsToLowerCase a = jsToLowerCase c.address →
       (env.getSignerRes = Except.error e2 ∨ env.getBalanceRes = Except.error e2) →
       (restoreMetaMaskConnection s env).1.storage = none) ∧
    (∀ a rest c bal, env.ethereumAvailable = true →
       env.ethAccountsRes = Except.ok (a :: rest) → s.connection = some c →
       jsToLowerCase a = jsToLowerCase c.address →
       env.getSignerRes = Except.ok () → env.getBalanceRes = Except.ok bal →
       (restoreMetaMaskConnection s env).1.storage =
         some (StoredValue.record (serializeConnection
           { c with signer := true, provider := true, balance := some bal })) ∧
       (restoreMetaMaskConnection s env).2 =
         [WEvent.connected
           (some { c with signer := true, provider := true, balance := some bal })]) := by
  refine ⟨fun h1 => ?_, fun h1 h2 => ?_, fun h1 h2 => ?_,
    fun a rest h1 h2 hc => ?_, fun a rest c h1 h2 hc hne => ?_,
    fun a rest c e2 h1 h2 hc heq hfail => ?_,
    fun a rest c bal h1 h2 hc heq hsg hbal => ?_⟩
  · simp [restoreMetaMaskConnection, h1, clearSavedConnection]
  · simp [restoreMetaMaskConnection, h1, h2]
  · simp [restoreMetaMaskConnection, h1, h2, clearSavedConnection]
  · simp [restoreMetaMaskConnection, h1, h2, hc, clearSavedConnection]
  · simp [restoreMetaMaskConnection, h1, h2, hc, hne, clearSavedConnection]
  · rcases hfail with hd | hd
    · simp [restoreMetaMaskConnection, h1, h2, hc, heq, hd, clearSavedConnection]
    · cases hs : env.getSignerRes with
      | error m =>
        simp [restoreMetaMaskConnection, h1, h2, hc, heq, hs, clearSavedConnection]
      | ok u =>
        simp [restoreMetaMaskConnection, h1, h2, hc, heq, hs, hd, clearSavedConnection]
  · constructor <;>
      simp [restoreMetaMaskConnection, h1, h2, hc, heq, hsg, hbal, saveConnection]

/-- C2 witness: restore on the established session with the account query
rejecting — everything preserved. -/
theorem restore_descriptor_policy_witness :
    restoreMetaMaskConnection stateConnected envRestoreLocked = (stateConnected, []) :=
  (restore_descriptor_policy stateConnected envRestoreLocked
    "MetaMask request failed").2.1 rfl rfl

/-- C6: the silent-restore check succeeds exactly when a session is
saved, it is a MetaMask one, the extension is present, the prompt-free
`eth_accounts` query reports a non-empty account list, and its first
account equals the persisted address case-insensitively; every other
configuration — no saved session, absent backend, failed or empty
account report, different first account, non-MetaMask backend — yields
`false`. -/
theorem canRestore_characterization (s : ConnectorState) (env : RestoreEnv) :
    canRestoreConnection s env = true ↔
      ∃ c a rest, s.connection = some c ∧ c.typ = WalletType.metamask ∧
        env.ethereumAvailable = true ∧
        env.ethAccountsRes = Except.ok (a :: rest) ∧
        jsToLowerCase a = jsToLowerCase c.address := by
  constructor
  · intro h
    unfold canRestoreConnection at h
    split at h
    · cases h
    · rename_i c hc
      split at h
      · rename_i ht
        split at h
        · rename_i ha
          split at h
          · cases h
          · rename_i accounts hr
            split at h
            · cases h
            · rename_i a rest
              exact ⟨c, a, rest, hc, ht, ha, hr, by simpa using h⟩
        · cases h
      · cases h
  · rintro ⟨c, a, rest, hc, ht, ha, hr, heq⟩
    simp [canRestoreConnection, hc, ht, ha, hr, heq]

/-- C6 witness: the positive case — saved MetaMask session for `0xABC1`,
backend already authorizes `0xabc1`. -/
theorem canRestore_characterization_witness :
    canRestoreConnection stateConnected envRestoreMatch = true :=
  (canRestore_characterization stateConnected envRestoreMatch).mpr
    ⟨connOld, "0xabc1", [], rfl, rfl, rfl, rfl, by decide⟩



/-- C10: `getBalance` throws exactly in the no-session case (and only
with that message); with a session it always succeeds, and a rejection of
the applicable backend query (Hedera balance query for HashPack with a
client, provider query otherwise) is caught and becomes `"0"`. -/
theorem getBalance_policy (s : ConnectorState) (env : BalanceEnv) :
    (∀ e, getBalance s env = Except.error e ↔
        s.connection = none ∧ e = "No wallet connected") ∧
    (∀ c, s.connection = some c → ∃ b, getBalance s env = Except.ok b) ∧
    (∀ c e, s.connection = some c → c.typ = WalletType.hashpack →
       s.hederaClient = true → env.hederaQueryRes = Except.error e →
       getBalance s env = Except.ok "0") ∧
    (∀ c e, s.connection = some c → c.typ ≠ WalletType.hashpack →
       c.provider = true → env.providerBalanceRes = Except.error e →
       getBalance s env = Except.ok "0") := by
  refine ⟨fun e => ?_, fun c hc => ?_, fun c e hc ht hcl hq => ?_, fun c e hc ht hp hq => ?_⟩
  · cases hc : s.connection with
    | none => simp [getBalance, hc, eq_comm]
    | some c =>
      simp only [getBalance, hc]
      constructor
      · intro h
        split at h <;> simp_all
      · rintro ⟨h, -⟩
        cases h
  · simp only [getBalance, hc]
    split
    · exact ⟨_, rfl⟩
    · exact ⟨_, rfl⟩
  · simp [getBalance, hc, ht, hcl, hq]
  · simp [getBalance, hc, ht, hp, hq]

/-- C10 witness: a HashPack session whose balance query rejects returns
`"0"` rather than propagating. -/
theorem getBalance_policy_witness :
    getBalance stateConnectedHP envBalanceErr = Except.ok "0" :=
  (getBalance_policy stateConnectedHP envBalanceErr).2.2.1 connHP "query failed"
    rfl rfl rfl rfl

/-- A successful `connectHashPackWalletConnect` yields a HashPack-typed
session whose account id is the first signer account the connector
exposes. -/
theorem connectHashPackWalletConnect_ok_shape (s : ConnectorState) (cfg : Config)
    (env : HashPackEnv) (c : WalletConnection)
    (h : (connectHashPackWalletConnect s cfg env).2.2 = Except.ok c) :
    c.typ = WalletType.hashpack ∧
    ∃ rest, env.signerAccountIds = c.accountId :: rest := by
  simp only [connectHashPackWalletConnect] at h
  split at h
  · simp at h
  · split at h
    · simp at h
    · rename_i accountId tail hsig
      simp only [Except.ok.injEq] at h
      subst h
      exact ⟨rfl, tail, hsig⟩

/-- A successful `connectMetaMask` yields a MetaMask-typed session whose
account id is the first account `eth_requestAccounts` reported. -/
theorem connectMetaMask_ok_shape (s : ConnectorState) (cfg : Config)
    (env : MetaMaskEnv) (c : WalletConnection)
    (h : (connectMetaMask s cfg env).2.2 = Except.ok c) :
    c.typ = WalletType.metamask ∧
    ∃ rest, env.requestAccountsRes = Except.ok (c.accountId :: rest) := by
  simp only [connectMetaMask] at h
  split at h
  · simp at h
  · split at h
    · simp at h
    · rename_i accounts hreq
      split at h
      · simp at h
      · rename_i account tail
        split at h
        · simp at h
        · split at h
          · simp at h
          · split at h
            · simp at h
            · split at h
              · simp at h
              · simp only [Except.ok.injEq] at h
                subst h
                exact ⟨rfl, tail, hreq⟩

/-- A successful `connectWalletConnect` yields a WalletConnect-typed
session with a non-empty account id (the `!account` falsiness check
rejects both a missing and an empty first account). -/
theorem connectWalletConnect_ok_shape (s : ConnectorState) (cfg : Config)
    (env : WalletConnectEnv) (c : WalletConnection)
    (h : (connectWalletConnect s cfg env).2.2 = Except.ok c) :
    c.typ = WalletType.walletconnect ∧ c.accountId ≠ "" := by
  simp only [connectWalletConnect] at h
  split at h
  · simp at h
  · split at h
    · simp at h
    · split at h
      · simp at h
      · split at h
        · simp at h
        · split at h
          · simp at h
          · split at h
            · simp at h
            · rename_i hne
              split at h
              · simp at h
              · split at h
                · simp at h
                · simp only [Except.ok.injEq] at h
                  subst h
                  exact ⟨rfl, hne⟩

/-- C7: for every requested backend type, a `connect(walletType)` that
returns (rather than throws) yields a session whose `accountId` is
non-empty and whose type equals the requested one.  The hypothesis is
the backends' wire contract that reported account strings are non-empty
(`EnvAccountsWellFormed`); the WalletConnect path needs no such
assumption since it rejects a falsy first account itself. -/
theorem connect_fullyPopulated (s : ConnectorState) (cfg : Config) (t : WalletType)
    (env : BackendEnv) (hw : EnvAccountsWellFormed env) (c : WalletConnection)
    (h : (connect s cfg t env).2.2 = Except.ok c) :
    c.accountId ≠ "" ∧ c.typ = t := by
  cases t with
  | hashpack =>
    obtain ⟨ht, rest, hsig⟩ := connectHashPackWalletConnect_ok_shape s cfg
      env.hashpack c h
    refine ⟨hw.1 c.accountId ?_, ht⟩
    rw [hsig]
    exact List.mem_cons_self _ _
  | metamask =>
    obtain ⟨ht, rest, hacc⟩ := connectMetaMask_ok_shape s cfg env.metamask c h
    exact ⟨hw.2 _ hacc c.accountId (List.mem_cons_self _ _), ht⟩
  | walletconnect =>
    obtain ⟨ht, hne⟩ := connectWalletConnect_ok_shape s cfg env.walletconnect c h
    exact ⟨hne, ht⟩

/-- C7 witness: the successful MetaMask connect on a fresh connector. -/
theorem connect_fullyPopulated_witness :
    mmConnNew.accountId ≠ "" ∧ mmConnNew.typ = WalletType.metamask :=
  connect_fullyPopulated stateFresh cfg0 WalletType.metamask envBundleOk
    ⟨by decide, fun l hl => by
      rw [show envBundleOk.metamask.requestAccountsRes =
        Except.ok ["0xDEF2"] from rfl] at hl
      injection hl with h2
      subst h2
      decide⟩
    mmConnNew rfl

/-- C1 (counterexample): with a session already established
(`stateConnected`), a second `connect(METAMASK)` is not rejected — it
runs the MetaMask handshake to completion, returns a fresh session for
the newly reported account and overwrites the current one. -/
theorem connect_noGuard_counterexample :
    stateConnected.connection = some connOld ∧
    exceptIsOk (connect stateConnected cfg0 WalletType.metamask envBundleOk).2.2 = true ∧
    (connect stateConnected cfg0 WalletType.metamask envBundleOk).1.connection =
      some mmConnNew ∧
    mmConnNew ≠ connOld :=
  ⟨rfl, rfl, rfl, by decide⟩

/-- C1 (amended): `connect` never reads the current connection — from any
state, including one with a session established, a handshake the backend
answers successfully returns the new session, replaces
`this.connection` with it, and emits one `connected` event. -/
theorem connect_whileConnected_replaces (s : ConnectorState) (c : WalletConnection)
    (_h : s.connection = some c) :
    (connect s cfg0 WalletType.metamask envBundleOk).2.2 = Except.ok mmConnNew ∧
    (connect s cfg0 WalletType.metamask envBundleOk).1.connection = some mmConnNew ∧
    countConnected (connect s cfg0 WalletType.metamask envBundleOk).2.1 = 1 :=
  ⟨rfl, rfl, rfl⟩

/-- C1 witness: the replacement at the concrete established state. -/
theorem connect_whileConnected_replaces_witness :
    (connect stateConnected cfg0 WalletType.metamask envBundleOk).2.2 =
      Except.ok mmConnNew ∧
    (connect stateConnected cfg0 WalletType.metamask envBundleOk).1.connection =
      some mmConnNew ∧
    countConnected (connect stateConnected cfg0 WalletType.metamask envBundleOk).2.1 = 1 :=
  connect_whileConnected_replaces stateConnected connOld rfl

end TalentChain
